import Mathlib

/-!
Verification development for the confluence-scrape-agent repository.

The Python source is shallowly embedded: pure data flow becomes Lean
functions, the remote Confluence backend becomes an explicit function
argument (its responses modelled with `Except`), exceptions caught by
`try/except` blocks become `Except.error` values fed into the embedded
control flow, and file-system effects become explicit event traces.
Every definition is translated from the source files named in its doc
comment.
-/

/-! ## Text utilities (Python `str.lower`, `in`, `str.split`) -/

/-- Lowercase a string into its character list, modelling Python `s.lower()`. -/
def lowerStr (s : String) : List Char :=
  s.data.map Char.toLower

/-- Boolean test that `n` is a leading segment of `h`. -/
def leadsList : List Char → List Char → Bool
  | [], _ => true
  | _ :: _, [] => false
  | a :: as, b :: bs => a == b && leadsList as bs

/-- Boolean substring test, modelling Python `n in h` on strings. -/
def isSubstrOf (n : List Char) : List Char → Bool
  | [] => leadsList n []
  | c :: hs => leadsList n (c :: hs) || isSubstrOf n hs

/-- Declarative substring relation used to characterise `isSubstrOf`. -/
def SubstrOf (n h : List Char) : Prop :=
  ∃ l r, h = l ++ n ++ r

/-- Whitespace split accumulator, modelling Python `s.split()` with no
arguments: runs of whitespace separate tokens and empty tokens are dropped. -/
def splitWsAux : List Char → List Char → List (List Char)
  | [], acc => if acc.isEmpty then [] else [acc.reverse]
  | c :: cs, acc =>
    if c.isWhitespace then
      if acc.isEmpty then splitWsAux cs [] else acc.reverse :: splitWsAux cs []
    else
      splitWsAux cs (c :: acc)

/-- Whitespace split of a string, modelling Python `s.split()`. -/
def splitWs (l : List Char) : List (List Char) :=
  splitWsAux l []

/-! ## Page fetch: `ConfluenceScraper.get_page_content`
(src/confluence_scraper.py lines 87-128) -/

/-- Raw payload returned by the backend `get_page_by_id` call with
`expand='body.storage,version'`; each field models one of the nested
`.get(...)` accesses the code performs, `none` for an absent key. -/
structure PagePayload where
  title : Option String := none
  bodyStorageValue : Option String := none
  linksWebui : Option String := none
  versionNumber : Option Nat := none
  versionWhen : Option String := none
deriving DecidableEq

/-- Tag stripping state machine modelling `BeautifulSoup(...).get_text()`
as used on storage-format markup: characters inside angle-bracket tags are
dropped, all other characters are kept. -/
def stripTagsAux : List Char → Bool → List Char
  | [], _ => []
  | c :: cs, true => if c == '>' then stripTagsAux cs false else stripTagsAux cs true
  | c :: cs, false => if c == '<' then stripTagsAux cs true else c :: stripTagsAux cs false

/-- Text extraction from markup, modelling `soup.get_text()`
(src/confluence_scraper.py lines 102-103). -/
def soupGetText (html : List Char) : List Char :=
  stripTagsAux html false

/-- Snippet computation from src/confluence_scraper.py line 113:
`content_text[:200] + '...' if len(content_text) > 200 else content_text`. -/
def snippetOf (text : List Char) : List Char :=
  if 200 < text.length then text.take 200 ++ ("...".data) else text

/-- Dictionary returned by `get_page_content`: every key the code may set,
`none` when the key is absent from the returned dict. -/
structure PageResult where
  id : String
  title : Option String := none
  content : Option String := none
  contentHtml : Option String := none
  url : Option String := none
  version : Option Nat := none
  lastModified : Option String := none
  contentSnippet : Option String := none
  attachments : Option (List String) := none
  error : Option String := none
deriving DecidableEq

/-- Embedding of `ConfluenceScraper.get_page_content`
(src/confluence_scraper.py lines 87-128).  The backend call
`get_page_by_id` is the argument `pageResp` and the attachment call
`get_attachments_from_content` is `attachResp`; an `Except.error` value
models the call raising, in which case control reaches the single
`except` handler which returns the dict with only `id` and `error` keys.
The attachment call happens inside the same `try` block, guarded by
`INCLUDE_ATTACHMENTS` (argument `includeAttachments`). -/
def get_page_content (includeAttachments : Bool) (pageId : String)
    (pageResp : Except String PagePayload)
    (attachResp : Except String (List String)) : PageResult :=
  match pageResp with
  | .error e => { id := pageId, error := some e }
  | .ok pd =>
    let contentHtml := pd.bodyStorageValue.getD ""
    let contentText : List Char := soupGetText contentHtml.data
    let base : PageResult :=
      { id := pageId
        title := some (pd.title.getD "Untitled")
        content := some (String.mk contentText)
        contentHtml := some contentHtml
        url := some (pd.linksWebui.getD "")
        version := some (pd.versionNumber.getD 1)
        lastModified := some (pd.versionWhen.getD "")
        contentSnippet := some (String.mk (snippetOf contentText)) }
    if includeAttachments then
      match attachResp with
      | .error e => { id := pageId, error := some e }
      | .ok atts => { base with attachments := some atts }
    else
      base

/-! ## Page listing: `ConfluenceScraper.get_pages_in_space`
(src/confluence_scraper.py lines 66-85) -/

/-- Stub of a page dict as returned by the backend listing call: the crawl
only reads its `id` (and `title` elsewhere). -/
structure PageStub where
  id : String
  title : String := ""
deriving DecidableEq

/-- Result of the listing phase: the listing calls issued to the backend,
each recorded as its `(start, limit)` argument pair, together with the
page list the phase returns to its caller. -/
structure ListingResult where
  calls : List (Nat × Nat)
  pages : List PageStub
deriving DecidableEq

/-- Embedding of `ConfluenceScraper.get_pages_in_space`
(src/confluence_scraper.py lines 66-85).  The body makes exactly one call
to the backend listing capability `get_all_pages_from_space` with
`start=0` and `limit=limit or self.config.MAX_PAGES_PER_SPACE` (Python
`or` treats `None` and `0` as falsy).  The surrounding `try/except`
catches any backend failure and returns the empty list. -/
def get_pages_in_space (maxPagesPerSpace : Nat) (limitArg : Option Nat)
    (backend : Nat → Nat → Except String (List PageStub)) : ListingResult :=
  let lim :=
    match limitArg with
    | some n => if n == 0 then maxPagesPerSpace else n
    | none => maxPagesPerSpace
  match backend 0 lim with
  | .ok ps => { calls := [(0, lim)], pages := ps }
  | .error _ => { calls := [(0, lim)], pages := [] }

/-- Fake paginated backend used to state listing properties: a space
holding `n` pages served with backend page size `k`; a call with
arguments `(start, limit)` returns the pages at positions
`start, start+1, ...`, at most `min k limit` of them. -/
def fakeSpaceBackend (n k : Nat) : Nat → Nat → Except String (List PageStub) :=
  fun start limit =>
    .ok ((((List.range n).map (fun i => { id := toString i })).drop start).take (min k limit))

/-! ## Crawl: `ConfluenceScraper.scrape_space`
(src/confluence_scraper.py lines 130-172) -/

/-- Entry appended to `result['pages']` for a successfully fetched page
(src/confluence_scraper.py lines 158-162). -/
structure SummaryEntry where
  id : String
  title : String
  savedTo : String
deriving DecidableEq

/-- Summary dict built by `scrape_space` and dumped to `summary.json`
(src/confluence_scraper.py lines 146-150). -/
structure ScrapeSummary where
  spaceKey : String
  totalPages : Nat
  pages : List SummaryEntry
deriving DecidableEq

/-- File-system write performed by `scrape_space`: a per-page JSON dump or
the final summary dump, each at its target path. -/
inductive WriteEvent
  | pageFile (path : String) (content : PageResult)
  | summaryFile (path : String) (content : ScrapeSummary)
deriving DecidableEq

/-- Target path of a page record, from src/confluence_scraper.py line 155. -/
def pagePath (outputDir pageId : String) : String :=
  outputDir ++ "/" ++ pageId ++ ".json"

/-- Summary entry built for a fetched page dict
(src/confluence_scraper.py lines 158-162). -/
def mkSummaryEntry (outputDir : String) (c : PageResult) : SummaryEntry :=
  { id := c.id, title := c.title.getD "Untitled", savedTo := pagePath outputDir c.id }

/-- Loop body of the result-saving loop (src/confluence_scraper.py lines
152-164): a fetched dict without an `error` key is dumped to its page file
and appended to `result['pages']`; a dict carrying an `error` key is only
logged and contributes nothing. -/
def scrapeStep (outputDir : String) (acc : List SummaryEntry × List WriteEvent)
    (c : PageResult) : List SummaryEntry × List WriteEvent :=
  if c.error.isNone then
    (acc.1 ++ [mkSummaryEntry outputDir c], acc.2 ++ [.pageFile (pagePath outputDir c.id) c])
  else
    acc

/-- Embedding of `ConfluenceScraper.scrape_space`
(src/confluence_scraper.py lines 130-172) downstream of the listing
phase.  `discovered` is the id list obtained from the listing phase and
`fetch` gives the dict `get_page_content` returns for each id
(`get_page_content` never raises, so `asyncio.gather` with
`return_exceptions=True` yields exactly these dicts in task order).  The
returned trace records every file write in program order: all page-file
writes, then the summary write. -/
def scrape_space (spaceKey outputDir : String) (discovered : List String)
    (fetch : String → PageResult) : ScrapeSummary × List WriteEvent :=
  let contents := discovered.map fetch
  let acc := contents.foldl (scrapeStep outputDir) ([], [])
  let summary : ScrapeSummary :=
    { spaceKey := spaceKey, totalPages := discovered.length, pages := acc.1 }
  (summary, acc.2 ++ [.summaryFile (outputDir ++ "/summary.json") summary])

/-- Composition of the listing phase and the crawl, as in
`scrape_space` lines 138-143: the discovered ids are whatever
`get_pages_in_space` returned (the empty list when the listing call
failed, since its `except` branch returns `[]`). -/
def scrape_space_full (spaceKey outputDir : String) (maxPagesPerSpace : Nat)
    (backend : Nat → Nat → Except String (List PageStub))
    (fetch : String → PageResult) : ScrapeSummary × List WriteEvent :=
  let listing := get_pages_in_space maxPagesPerSpace none backend
  scrape_space spaceKey outputDir (listing.pages.map PageStub.id) fetch

/-! ## Fan-out concurrency structure of `scrape_space`
(src/confluence_scraper.py lines 141-143) -/

/-- Scheduling event of the fetch fan-out: a page-fetch task entering
flight or completing. -/
inductive CrawlEvent
  | spawn (id : String)
  | complete (id : String)
deriving DecidableEq

/-- Boolean discriminator for spawn events. -/
def CrawlEvent.isSpawn : CrawlEvent → Bool
  | .spawn _ => true
  | .complete _ => false

/-- Scheduling trace of the fan-out in src/confluence_scraper.py lines
142-143: `asyncio.gather` creates one task per discovered page and the
event loop starts every task (each submits its blocking fetch and
suspends) before any completion callback runs, so the trace places all
spawns before all completions.  There is no semaphore or worker pool in
the code bounding the spawns. -/
def scrapeFanoutTrace (discovered : List String) : List CrawlEvent :=
  discovered.map CrawlEvent.spawn ++ discovered.map CrawlEvent.complete

/-- Number of fetches in flight after a trace segment: spawns seen minus
completions seen. -/
def inFlightCount (evs : List CrawlEvent) : Nat :=
  (evs.filter CrawlEvent.isSpawn).length - (evs.filter (fun e => !e.isSpawn)).length

/-- Largest number of simultaneously in-flight fetches over a trace. -/
def maxInFlightTrace (evs : List CrawlEvent) : Nat :=
  ((List.range (evs.length + 1)).map (fun k => inFlightCount (evs.take k))).foldl max 0

/-! ## Write discipline of page persistence
(src/confluence_scraper.py lines 156-157) -/

/-- Observable file states at the final page path during the write in
src/confluence_scraper.py lines 156-157: the code opens the destination
path itself with mode `w` (truncating it) and then `json.dump` writes the
serialized record incrementally — there is no write-to-temp-then-rename
step.  A reader opening the path concurrently can thus observe the old
bytes (before the open) or any prefix of the new record (after the open
and after each partial write). -/
def putPageObservableStates (old record : List Char) : List (List Char) :=
  old :: (List.range (record.length + 1)).map (fun k => record.take k)

/-! ## Store-backed search: `ContentSearchTool._run`
(src/agents.py lines 151-197) and `ContentQueryTool._run`
(src/query_agent.py lines 42-74) -/

/-- Page entry as read by the query tools from a stored `data['pages']`
record: the keys `title`, `content`, `url` the tools access, plus the
record's `last_modified` timestamp (modelled as a number so recency is
comparable); the tools under verification never read `lastModified`. -/
structure KPage where
  title : String
  content : String
  url : String
  lastModified : Nat := 0
deriving DecidableEq

/-- Hit dict appended by `ContentSearchTool._run` for a matching page
(src/agents.py lines 180-184): title, content truncated to 200 characters
plus an ellipsis, and url. -/
structure SearchHit where
  title : String
  content : String
  url : String
deriving DecidableEq

/-- Match test of `ContentSearchTool._run` (src/agents.py lines 176-179):
`query.lower() in content or query.lower() in title` after lowercasing. -/
def contentSearchMatch (query : String) (p : KPage) : Bool :=
  isSubstrOf (lowerStr query) (lowerStr p.content) || isSubstrOf (lowerStr query) (lowerStr p.title)

/-- Hit built for a matching page (src/agents.py lines 180-184). -/
def mkSearchHit (p : KPage) : SearchHit :=
  { title := p.title, content := String.mk (p.content.data.take 200) ++ "...", url := p.url }

/-- Embedding of the result-accumulation loop of `ContentSearchTool._run`
(src/agents.py lines 174-184): iterate the stored pages in order,
appending a hit for each page whose lowercased content or title contains
the lowercased query. -/
def contentSearchRun (query : String) (pages : List KPage) : List SearchHit :=
  pages.foldl (fun acc p => if contentSearchMatch query p then acc ++ [mkSearchHit p] else acc) []

/-- Per-page JSON record as read by `ContentQueryTool._run`
(src/query_agent.py lines 58-68): the keys it accesses. -/
structure PageRecord where
  id : String
  title : String
  content_snippet : String
  url : String
deriving DecidableEq

/-- Hit dict appended by `ContentQueryTool._run` for a matching record
(src/query_agent.py lines 63-68), space directory omitted. -/
structure QueryHit where
  page_id : String
  title : String
  url : String
deriving DecidableEq

/-- Match test of `ContentQueryTool._run` (src/query_agent.py lines
60-62): `query.lower() in title or query.lower() in content_snippet`
after lowercasing both fields. -/
def contentQueryMatch (query : String) (d : PageRecord) : Bool :=
  isSubstrOf (lowerStr query) (lowerStr d.title) || isSubstrOf (lowerStr query) (lowerStr d.content_snippet)

/-- Embedding of the result-accumulation loop of `ContentQueryTool._run`
(src/query_agent.py lines 49-68): iterate the stored records in order,
appending a hit for each record whose lowercased title or snippet
contains the lowercased query. -/
def contentQueryRun (query : String) (recs : List PageRecord) : List QueryHit :=
  recs.foldl
    (fun acc d =>
      if contentQueryMatch query d then acc ++ [⟨d.id, d.title, d.url⟩] else acc) []

/-! ## Top-k context assembly: `KnowledgeQueryTool._run`
(src/agents.py lines 270-336) -/

/-- Keyword list of a question, from src/agents.py line 299:
`question.lower().split()`. -/
def questionKeywords (question : String) : List (List Char) :=
  splitWs (lowerStr question)

/-- Relevance test of `KnowledgeQueryTool._run` (src/agents.py lines
298-300): some question keyword occurs in the lowercased content or the
lowercased title. -/
def knowledgeMatch (question : String) (p : KPage) : Bool :=
  (questionKeywords question).any
    (fun kw => isSubstrOf kw (lowerStr p.content) || isSubstrOf kw (lowerStr p.title))

/-- Embedding of the relevant-content accumulation loop of
`KnowledgeQueryTool._run` (src/agents.py lines 293-305): pages are kept
in store iteration order. -/
def knowledgeRelevant (question : String) (pages : List KPage) : List KPage :=
  pages.foldl (fun acc p => if knowledgeMatch question p then acc ++ [p] else acc) []

/-- Embedding of the context selection of `KnowledgeQueryTool._run`
(src/agents.py lines 311-314): the first three entries of the
relevant-content list, `relevant_content[:3]`. -/
def knowledgeSelect (question : String) (pages : List KPage) : List KPage :=
  (knowledgeRelevant question pages).take 3

/-- Overlap score between a question and a page as the specification
words it: the count of the question's whitespace-split lowercase tokens
that occur in the page's title or content.  This definition follows the
spec text (spec.md section 4.6), not the source; it exists to be compared
with `knowledgeSelect`. -/
def specOverlapScore (question : String) (p : KPage) : Nat :=
  ((questionKeywords question).filter
    (fun kw => isSubstrOf kw (lowerStr p.title) || isSubstrOf kw (lowerStr p.content))).length

/-- Ranking relation of the spec's `AnswerContext`: higher overlap score
first, ties broken by most-recent `last_modified_at`.  Spec-side
definition (spec.md section 4.6), to be compared with the source. -/
def specRankBefore (question : String) (a b : KPage) : Bool :=
  decide (specOverlapScore question b < specOverlapScore question a) ||
    (decide (specOverlapScore question a = specOverlapScore question b) &&
      decide (b.lastModified ≤ a.lastModified))

/-- Insertion into a list sorted by `le`. -/
def insertRanked (le : KPage → KPage → Bool) (a : KPage) : List KPage → List KPage
  | [] => [a]
  | b :: bs => if le a b then a :: b :: bs else b :: insertRanked le a bs

/-- Insertion sort by `le`. -/
def sortRanked (le : KPage → KPage → Bool) (l : List KPage) : List KPage :=
  l.foldr (insertRanked le) []

/-- Spec-side `AnswerContext` selection (spec.md section 4.6): keep pages
with at least one overlapping token, order them by overlap score with
recency tie-break, return at most `top_k = 3`.  Exists to be compared
with `knowledgeSelect`, the selection the source actually performs. -/
def specAnswerContext (question : String) (pages : List KPage) : List KPage :=
  (sortRanked (specRankBefore question)
    (pages.filter (fun p => decide (0 < specOverlapScore question p)))).take 3

/-! ## Helper lemmas -/

/-- Correctness of the leading-segment test. -/
lemma leadsList_iff (n : List Char) : ∀ h : List Char, leadsList n h = true ↔ ∃ r, h = n ++ r := by
  induction n with
  | nil =>
    intro h
    simp [leadsList]
  | cons a as ih =>
    intro h
    cases h with
    | nil =>
      simp [leadsList]
    | cons b bs =>
      simp only [leadsList, Bool.and_eq_true, beq_iff_eq, ih bs]
      constructor
      · rintro ⟨rfl, r, rfl⟩
        exact ⟨r, rfl⟩
      · rintro ⟨r, hr⟩
        rw [List.cons_append] at hr
        obtain ⟨h1, h2⟩ := List.cons.injEq .. ▸ hr
        exact ⟨h1.symm, r, h2⟩

/-- Correctness of the Python `in` model: `isSubstrOf` decides the
declarative substring relation. -/
lemma isSubstrOf_iff (n : List Char) : ∀ h : List Char, isSubstrOf n h = true ↔ SubstrOf n h := by
  intro h
  induction h with
  | nil =>
    simp only [isSubstrOf, leadsList_iff, SubstrOf]
    constructor
    · rintro ⟨r, hr⟩
      exact ⟨[], r, by simpa using hr⟩
    · rintro ⟨l, r, hlr⟩
      have hl : l = [] := by
        cases l with
        | nil => rfl
        | cons x xs => simp at hlr
      subst hl
      exact ⟨r, by simpa using hlr⟩
  | cons c hs ih =>
    simp only [isSubstrOf, Bool.or_eq_true, leadsList_iff, ih, SubstrOf]
    constructor
    · rintro (⟨r, hr⟩ | ⟨l, r, hlr⟩)
      · exact ⟨[], r, by simpa using hr⟩
      · exact ⟨c :: l, r, by simp [hlr]⟩
    · rintro ⟨l, r, hlr⟩
      cases l with
      | nil =>
        left
        exact ⟨r, by simpa using hlr⟩
      | cons x xs =>
        right
        rw [List.cons_append, List.cons_append] at hlr
        obtain ⟨h1, h2⟩ := List.cons.injEq .. ▸ hlr
        exact ⟨xs, r, by simp [h2]⟩

/-- Accumulation loops of the form `append a hit when the predicate
holds` compute the filtered, mapped list. -/
lemma foldl_filter_map_append {α β : Type} (p : α → Bool) (g : α → β) :
    ∀ (l : List α) (acc : List β),
      l.foldl (fun acc x => if p x then acc ++ [g x] else acc) acc
        = acc ++ (l.filter p).map g := by
  intro l
  induction l with
  | nil => intro acc; simp
  | cons x xs ih =>
    intro acc
    by_cases h : p x
    · simp [List.filter_cons, h, ih]
    · simp [List.filter_cons, h, ih]

/-- Identity-payload version of `foldl_filter_map_append`. -/
lemma foldl_filter_append {α : Type} (p : α → Bool) :
    ∀ (l : List α) (acc : List α),
      l.foldl (fun acc x => if p x then acc ++ [x] else acc) acc = acc ++ l.filter p := by
  intro l
  induction l with
  | nil => intro acc; simp
  | cons x xs ih =>
    intro acc
    by_cases h : p x
    · simp [List.filter_cons, h, ih]
    · simp [List.filter_cons, h, ih]

/-- Characterisation of the result-saving loop of `scrape_space`: summary
entries and page-file writes are exactly those of the error-free fetched
dicts, in order. -/
lemma scrape_foldl (outputDir : String) :
    ∀ (cs : List PageResult) (a : List SummaryEntry) (b : List WriteEvent),
      cs.foldl (scrapeStep outputDir) (a, b)
        = (a ++ (cs.filter (fun c => c.error.isNone)).map (mkSummaryEntry outputDir),
           b ++ (cs.filter (fun c => c.error.isNone)).map
             (fun c => WriteEvent.pageFile (pagePath outputDir c.id) c)) := by
  intro cs
  induction cs with
  | nil => intro a b; simp
  | cons c rest ih =>
    intro a b
    by_cases h : c.error.isNone
    · simp [scrapeStep, List.filter_cons, h, ih]
    · simp [scrapeStep, List.filter_cons, h, ih]

/-- Closed form of `scrape_space`. -/
lemma scrape_space_eq (spaceKey outputDir : String) (discovered : List String)
    (fetch : String → PageResult) :
    scrape_space spaceKey outputDir discovered fetch
      = ({ spaceKey := spaceKey, totalPages := discovered.length,
           pages := ((discovered.map fetch).filter (fun c => c.error.isNone)).map
             (mkSummaryEntry outputDir) },
         ((discovered.map fetch).filter (fun c => c.error.isNone)).map
             (fun c => WriteEvent.pageFile (pagePath outputDir c.id) c)
           ++ [.summaryFile (outputDir ++ "/summary.json")
                { spaceKey := spaceKey, totalPages := discovered.length,
                  pages := ((discovered.map fetch).filter (fun c => c.error.isNone)).map
                    (mkSummaryEntry outputDir) }]) := by
  simp [scrape_space, scrape_foldl]

/-- The initial accumulator is a lower bound of a `max` fold. -/
lemma foldl_max_le_init (l : List Nat) : ∀ init : Nat, init ≤ l.foldl max init := by
  induction l with
  | nil => intro init; simp
  | cons x xs ih =>
    intro init
    exact le_trans (le_max_left init x) (ih (max init x))

/-- Every member of a list bounds its `max` fold from below. -/
lemma mem_le_foldl_max : ∀ (l : List Nat) (a : Nat), a ∈ l → ∀ init : Nat, a ≤ l.foldl max init := by
  intro l
  induction l with
  | nil => intro a h; cases h
  | cons x xs ih =>
    intro a h init
    rcases List.mem_cons.mp h with h1 | h2
    · subst h1
      exact le_trans (le_max_right init a) (foldl_max_le_init xs _)
    · exact ih a h2 (max init x)

/-- Spawn events survive the spawn filter. -/
lemma count_spawn_map (d : List String) :
    ((d.map CrawlEvent.spawn).filter CrawlEvent.isSpawn).length = d.length := by
  induction d with
  | nil => rfl
  | cons a t ih => simp [List.filter_cons, CrawlEvent.isSpawn, ih]

/-- Spawn events are removed by the completion filter. -/
lemma count_nonspawn_map (d : List String) :
    ((d.map CrawlEvent.spawn).filter (fun e => !e.isSpawn)).length = 0 := by
  induction d with
  | nil => rfl
  | cons a t ih => simp [List.filter_cons, CrawlEvent.isSpawn, ih]

/-- After all spawns of the fan-out trace, the whole discovered list is in
flight at once. -/
lemma inflight_all_spawns (d : List String) :
    inFlightCount ((scrapeFanoutTrace d).take d.length) = d.length := by
  have h1 : (scrapeFanoutTrace d).take d.length = d.map CrawlEvent.spawn := by
    unfold scrapeFanoutTrace
    rw [show d.length = (d.map CrawlEvent.spawn).length by simp]
    exact List.take_left _ _
  rw [h1]
  unfold inFlightCount
  rw [count_spawn_map, count_nonspawn_map]
  omega

/-! ## Concrete fixtures used by counterexamples and witnesses -/

/-- Fetch outcome map where page `2` fails with a network error and every
other page succeeds. -/
def fetchFail2 : String → PageResult := fun i =>
  if i == "2" then { id := i, error := some "network error" }
  else { id := i, title := some "T", content := some "", contentHtml := some "",
         url := some "", version := some 1, lastModified := some "", contentSnippet := some "" }

/-- Store of the two pages used by the specification's search example. -/
def demoStore : List KPage :=
  [{ title := "Deployment Guide", content := "", url := "u1" },
   { title := "Billing FAQ", content := "", url := "u2" }]

/-- Store of four pages where the page with the highest keyword overlap
for the question `a b` sits in the fourth position. -/
def demoRankStore : List KPage :=
  [{ title := "a", content := "", url := "u1" },
   { title := "a", content := "", url := "u2" },
   { title := "a", content := "", url := "u3" },
   { title := "a b", content := "", url := "u4" }]

/-! ## Claim theorems -/

/-- Claim C1, as stated, is false on the code: `scrape_space` launches one
task per discovered page through `asyncio.gather` with no semaphore or
worker pool, so a crawl of the two-page space with concurrency limit
`C = 1` has two page-fetch operations in flight simultaneously. -/
theorem scrape_space_fanout_exceeds_limit_cx :
    ¬ (maxInFlightTrace (scrapeFanoutTrace ["1", "2"]) ≤ 1) := by decide

/-- Claim C1 amended: the fan-out of `scrape_space`
(src/confluence_scraper.py lines 142-143) is one task per discovered page
with no concurrency bound, so the number of simultaneously in-flight
page fetches reaches the number of discovered pages and every limit `C`
below that count is exceeded. -/
theorem scrape_space_fanout_unbounded :
    ∀ (discovered : List String) (C : Nat), C < discovered.length →
      C < maxInFlightTrace (scrapeFanoutTrace discovered) := by
  intro d C h
  have hlen : d.length ≤ (scrapeFanoutTrace d).length := by
    simp [scrapeFanoutTrace]
  have hmem : inFlightCount ((scrapeFanoutTrace d).take d.length)
      ∈ (List.range ((scrapeFanoutTrace d).length + 1)).map
          (fun k => inFlightCount ((scrapeFanoutTrace d).take k)) := by
    exact List.mem_map_of_mem _ (List.mem_range.mpr (by omega))
  have hle := mem_le_foldl_max _ _ hmem 0
  rw [inflight_all_spawns] at hle
  unfold maxInFlightTrace
  omega

/-- Witness for the amended claim C1 at a concrete one-page crawl with
limit zero. -/
theorem scrape_space_fanout_unbounded_witness :
    0 < maxInFlightTrace (scrapeFanoutTrace ["1"]) :=
  scrape_space_fanout_unbounded ["1"] 0 (by decide)

/-- Claim C2, as stated, is false on the code: for a space of `N = 2`
pages with backend page size `K = 1`, the listing phase does not issue
`ceil(N/K) = 2` listing calls and does not discover both ids — it issues
a single call and discovers one id. -/
theorem get_pages_in_space_pagination_cx :
    ¬ ((get_pages_in_space 100 none (fakeSpaceBackend 2 1)).calls.length = 2
        ∧ (get_pages_in_space 100 none (fakeSpaceBackend 2 1)).pages.length = 2) := by decide

/-- Claim C2 amended: `get_pages_in_space`
(src/confluence_scraper.py lines 66-85) issues exactly one listing call
regardless of the backend, at offset 0 with limit `MAX_PAGES_PER_SPACE`
when no limit argument is given, and against a backend holding `n` pages
with page size `k` it discovers `min (min k maxPages) n` ids — not all
`n`: there is no offset-cursor loop. -/
theorem get_pages_in_space_single_call :
    ∀ (n k maxPages : Nat) (limitArg : Option Nat)
      (backend : Nat → Nat → Except String (List PageStub)),
      (get_pages_in_space maxPages limitArg backend).calls.length = 1
      ∧ (get_pages_in_space maxPages none (fakeSpaceBackend n k)).calls = [(0, maxPages)]
      ∧ (get_pages_in_space maxPages none (fakeSpaceBackend n k)).pages.length
          = min (min k maxPages) n := by
  intro n k mp limitArg backend
  refine ⟨?_, ?_, ?_⟩
  · unfold get_pages_in_space
    cases limitArg with
    | none => cases hb : backend 0 mp <;> simp [hb]
    | some v =>
      by_cases hv : v == 0
      · simp only [hv]
        cases hb : backend 0 mp <;> simp [hb]
      · simp only [hv]
        cases hb : backend 0 v <;> simp [hb]
  · simp [get_pages_in_space, fakeSpaceBackend]
  · simp [get_pages_in_space, fakeSpaceBackend]

/-- Claim C5, as stated, is false on the code: with a backend whose
listing call fails, the crawl does not abort — it runs to completion and
its result is indistinguishable from a crawl of an empty space. -/
theorem listing_failure_not_propagated_cx :
    scrape_space_full "SP" "out" 100 (fun _ _ => .error "connection refused") fetchFail2
      = scrape_space_full "SP" "out" 100 (fun _ _ => .ok []) fetchFail2
    ∧ (scrape_space_full "SP" "out" 100 (fun _ _ => .error "connection refused")
        fetchFail2).1.totalPages = 0 := by
  constructor <;> rfl

/-- Claim C5 amended: a listing-phase failure is swallowed by the
`except` branch of `get_pages_in_space`, which returns the empty page
list; `scrape_space` then continues and completes, producing a manifest
of zero pages identical to the one produced for a genuinely empty space,
and still writes the summary file. -/
theorem listing_failure_yields_empty_manifest :
    ∀ (spaceKey outputDir : String) (maxPages : Nat) (err : String)
      (fetch : String → PageResult),
      (get_pages_in_space maxPages none (fun _ _ => .error err)).pages = []
      ∧ scrape_space_full spaceKey outputDir maxPages (fun _ _ => .error err) fetch
          = scrape_space_full spaceKey outputDir maxPages (fun _ _ => .ok []) fetch
      ∧ (scrape_space_full spaceKey outputDir maxPages (fun _ _ => .error err) fetch).1
          = { spaceKey := spaceKey, totalPages := 0, pages := [] }
      ∧ (scrape_space_full spaceKey outputDir maxPages (fun _ _ => .error err) fetch).2
          = [.summaryFile (outputDir ++ "/summary.json")
              { spaceKey := spaceKey, totalPages := 0, pages := [] }] := by
  intro sk dir mp err fetch
  refine ⟨rfl, rfl, rfl, rfl⟩

/-- Claim C3, as stated, is false on the code: crawling the two-page
space where page `2` fails to fetch yields a manifest whose per-page
outcomes do not cover every discovered id — the failed id `2` has no
outcome at all, it is only logged and dropped. -/
theorem scrape_space_manifest_omits_failed_cx :
    ¬ (∀ pid ∈ ["1", "2"],
        ∃ e ∈ (scrape_space "SP" "out" ["1", "2"] fetchFail2).1.pages, e.id = pid) := by
  decide

/-- Claim C3 amended: the final manifest of `scrape_space` contains
exactly one outcome per discovered id whose fetch succeeded, in
discovery order; ids whose fetch failed are dropped from the per-page
outcomes (they are reflected only in the `total_pages` count), and a
failed fetch does not abort the run — the summary is still built over
all discovered pages and written last. -/
theorem scrape_space_manifest_success_only :
    ∀ (spaceKey outputDir : String) (discovered : List String)
      (fetch : String → PageResult),
      (scrape_space spaceKey outputDir discovered fetch).1.pages
        = ((discovered.map fetch).filter (fun c => c.error.isNone)).map
            (mkSummaryEntry outputDir)
      ∧ (scrape_space spaceKey outputDir discovered fetch).1.totalPages = discovered.length
      ∧ (scrape_space spaceKey outputDir discovered fetch).2.getLast?
          = some (.summaryFile (outputDir ++ "/summary.json")
              (scrape_space spaceKey outputDir discovered fetch).1) := by
  intro sk dir d fetch
  rw [scrape_space_eq]
  refine ⟨rfl, rfl, ?_⟩
  exact List.getLast?_concat _

/-- Claim C4, as stated, is false on the code: the page write of
`scrape_space` opens the destination file itself in mode `w` and dumps
into it, so a concurrent reader of the store can observe a state (here
the empty truncated file, or a one-character prefix) that is neither the
old record nor the complete new record. -/
theorem putPage_not_atomic_cx :
    ¬ (∀ s ∈ putPageObservableStates "x".data "ab".data,
        s = "x".data ∨ s = "ab".data) := by
  decide

/-- Claim C4 amended: page writes go directly to the final path with no
write-to-temp-then-rename step, so whenever the old and new contents are
both non-empty a concurrent reader can observe an intermediate state that
is neither the previous record nor the complete new record. -/
theorem putPage_direct_write_partial_observable :
    ∀ (old record : List Char), old ≠ [] → record ≠ [] →
      ∃ s ∈ putPageObservableStates old record, s ≠ old ∧ s ≠ record := by
  intro old record hold hrec
  refine ⟨[], ?_, ?_, ?_⟩
  · unfold putPageObservableStates
    refine List.mem_cons.mpr (Or.inr ?_)
    refine List.mem_map.mpr ⟨0, ?_, ?_⟩
    · exact List.mem_range.mpr (by omega)
    · simp
  · exact fun h => hold h.symm
  · exact fun h => hrec h.symm

/-- Witness for the amended claim C4 at a concrete overwrite of a
one-character record by a serialized two-character record. -/
theorem putPage_direct_write_partial_observable_witness :
    ∃ s ∈ putPageObservableStates "x".data "ab".data, s ≠ "x".data ∧ s ≠ "ab".data :=
  putPage_direct_write_partial_observable "x".data "ab".data (by decide) (by decide)

/-- Claim C8, as stated, is false on the code: the attachment fetch of
`get_page_content` runs inside the same `try` block as the page fetch,
so when it raises the whole page lands in the `except` handler and is
returned as an error dict — the page is recorded as a failed fetch, not
persisted with zero attachments. -/
theorem attachment_failure_nonfatal_cx :
    ¬ ((get_page_content true "1" (.ok {}) (.error "boom")).error = none) := by
  decide

/-- Claim C8 amended: with attachment enrichment enabled, a failure of
the attachment fetch is fatal to that page's ingestion — even though the
page payload itself was fetched and normalized, `get_page_content`
returns the failure dict carrying only the id and the error reason, so
the page is recorded as a failed fetch and not persisted. -/
theorem attachment_failure_fails_page :
    ∀ (pageId : String) (payload : PagePayload) (err : String),
      get_page_content true pageId (.ok payload) (.error err)
        = { id := pageId, error := some err } := by
  intro pid payload err
  rfl

/-- Claim C9 confirmed: `get_page_content` is total at its interface —
every control path ends inside its `try/except` returning a dict whose
`id` is the requested page id; on success the title, content, url,
version and snippet keys are populated, and on any failure the dict
carries only the id and the error reason (in particular a raising page
fetch returns exactly the id-plus-error dict). -/
theorem get_page_content_interface_total :
    ∀ (includeAttachments : Bool) (pageId : String)
      (pageResp : Except String PagePayload) (attachResp : Except String (List String)),
      (get_page_content includeAttachments pageId pageResp attachResp).id = pageId
      ∧ ((get_page_content includeAttachments pageId pageResp attachResp).error = none →
          (get_page_content includeAttachments pageId pageResp attachResp).title.isSome
          ∧ (get_page_content includeAttachments pageId pageResp attachResp).content.isSome
          ∧ (get_page_content includeAttachments pageId pageResp attachResp).url.isSome
          ∧ (get_page_content includeAttachments pageId pageResp attachResp).version.isSome
          ∧ (get_page_content includeAttachments pageId pageResp attachResp).contentSnippet.isSome)
      ∧ (∀ e, pageResp = .error e →
          get_page_content includeAttachments pageId pageResp attachResp
            = { id := pageId, error := some e })
      ∧ ((get_page_content includeAttachments pageId pageResp attachResp).error.isSome →
          (get_page_content includeAttachments pageId pageResp attachResp).title = none
          ∧ (get_page_content includeAttachments pageId pageResp attachResp).content = none
          ∧ (get_page_content includeAttachments pageId pageResp attachResp).url = none
          ∧ (get_page_content includeAttachments pageId pageResp attachResp).version = none) := by
  intro inc pid presp aresp
  cases presp with
  | error e => simp [get_page_content]
  | ok pd =>
    cases inc with
    | false => simp [get_page_content]
    | true =>
      cases aresp with
      | error e2 => simp [get_page_content]
      | ok atts => simp [get_page_content]

/-- Witness for claim C9 at a concrete failing page fetch. -/
theorem get_page_content_interface_total_witness :
    get_page_content false "9" (.error "down") (.ok []) = { id := "9", error := some "down" } :=
  (get_page_content_interface_total false "9" (.error "down") (.ok [])).2.2.1 "down" rfl

/-- Claim C10 confirmed: every summary returned by `scrape_space` lists at
most `total_pages` entries; `total_pages` counts all discovered pages;
every entry in `pages` arises from a discovered page whose fetch carried
no error key, and that page's JSON record was written to the output
directory strictly before the summary file (the summary write is the last
event of the run); failed fetches contribute no entry yet are counted in
`total_pages`. -/
theorem scrape_summary_invariants :
    ∀ (spaceKey outputDir : String) (discovered : List String)
      (fetch : String → PageResult),
      (scrape_space spaceKey outputDir discovered fetch).1.pages.length
          ≤ (scrape_space spaceKey outputDir discovered fetch).1.totalPages
      ∧ (scrape_space spaceKey outputDir discovered fetch).1.totalPages = discovered.length
      ∧ (∀ e ∈ (scrape_space spaceKey outputDir discovered fetch).1.pages,
          ∃ c ∈ discovered.map fetch, c.error.isNone
            ∧ e = mkSummaryEntry outputDir c
            ∧ WriteEvent.pageFile (pagePath outputDir c.id) c
                ∈ (scrape_space spaceKey outputDir discovered fetch).2.dropLast)
      ∧ (scrape_space spaceKey outputDir discovered fetch).2.getLast?
          = some (.summaryFile (outputDir ++ "/summary.json")
              (scrape_space spaceKey outputDir discovered fetch).1) := by
  intro sk dir d fetch
  rw [scrape_space_eq]
  refine ⟨?_, rfl, ?_, ?_⟩
  · simp only [List.length_map]
    calc ((d.map fetch).filter (fun c => c.error.isNone)).length
        ≤ (d.map fetch).length := List.length_filter_le _ _
      _ = d.length := List.length_map _ _
  · intro e he
    obtain ⟨c, hc, rfl⟩ := List.mem_map.mp he
    obtain ⟨hmem, hpred⟩ := List.mem_filter.mp hc
    refine ⟨c, hmem, by simpa using hpred, rfl, ?_⟩
    rw [List.dropLast_concat]
    exact List.mem_map_of_mem _ hc
  · exact List.getLast?_concat _

/-- Witness for claim C10 at a concrete crawl where page `2` fails: the
entry for page `1` is traced back to its successful fetch and its page
file write. -/
theorem scrape_summary_invariants_witness :
    (scrape_space "SP" "out" ["1", "2"] fetchFail2).1.pages.length
        ≤ (scrape_space "SP" "out" ["1", "2"] fetchFail2).1.totalPages
    ∧ ∃ c ∈ ["1", "2"].map fetchFail2, c.error.isNone
        ∧ mkSummaryEntry "out" (fetchFail2 "1") = mkSummaryEntry "out" c
        ∧ WriteEvent.pageFile (pagePath "out" c.id) c
            ∈ (scrape_space "SP" "out" ["1", "2"] fetchFail2).2.dropLast :=
  ⟨(scrape_summary_invariants "SP" "out" ["1", "2"] fetchFail2).1,
   (scrape_summary_invariants "SP" "out" ["1", "2"] fetchFail2).2.2.1
     (mkSummaryEntry "out" (fetchFail2 "1")) (by decide)⟩

/-- Claim C6 confirmed: the store-backed search loops return exactly the
stored pages matched by case-insensitive substring search — `content_search`
(src/agents.py) against title and full content, `ContentQueryTool`
(src/query_agent.py) against title and snippet where the stored snippet
stands in for the content — and a query matching nothing yields the empty
result list rather than an error (both loops are total and their
surrounding `try/except` only reformats the result). -/
theorem search_substring_exact :
    (∀ (query : String) (pages : List KPage),
        contentSearchRun query pages = (pages.filter (contentSearchMatch query)).map mkSearchHit)
    ∧ (∀ (query : String) (p : KPage),
        contentSearchMatch query p = true
          ↔ (SubstrOf (lowerStr query) (lowerStr p.content)
              ∨ SubstrOf (lowerStr query) (lowerStr p.title)))
    ∧ (∀ (query : String) (recs : List PageRecord),
        contentQueryRun query recs
          = (recs.filter (contentQueryMatch query)).map (fun d => ⟨d.id, d.title, d.url⟩))
    ∧ (∀ (query : String) (d : PageRecord),
        contentQueryMatch query d = true
          ↔ (SubstrOf (lowerStr query) (lowerStr d.title)
              ∨ SubstrOf (lowerStr query) (lowerStr d.content_snippet)))
    ∧ (∀ (query : String) (pages : List KPage),
        (∀ p ∈ pages, contentSearchMatch query p = false) → contentSearchRun query pages = [])
    ∧ (∀ (query : String) (recs : List PageRecord),
        (∀ d ∈ recs, contentQueryMatch query d = false) → contentQueryRun query recs = []) := by
  have hsearch : ∀ (query : String) (pages : List KPage),
      contentSearchRun query pages = (pages.filter (contentSearchMatch query)).map mkSearchHit := by
    intro q pages
    simpa using foldl_filter_map_append (contentSearchMatch q) mkSearchHit pages []
  have hquery : ∀ (query : String) (recs : List PageRecord),
      contentQueryRun query recs
        = (recs.filter (contentQueryMatch query)).map (fun d => (⟨d.id, d.title, d.url⟩ : QueryHit)) := by
    intro q recs
    simpa using
      foldl_filter_map_append (contentQueryMatch q)
        (fun d => (⟨d.id, d.title, d.url⟩ : QueryHit)) recs []
  refine ⟨hsearch, ?_, hquery, ?_, ?_, ?_⟩
  · intro q p
    simp [contentSearchMatch, isSubstrOf_iff]
  · intro q d
    simp [contentQueryMatch, isSubstrOf_iff]
  · intro q pages hnone
    rw [hsearch]
    have : pages.filter (contentSearchMatch q) = [] := by
      simp only [List.filter_eq_nil_iff]
      intro p hp
      simp [hnone p hp]
    rw [this]
    rfl
  · intro q recs hnone
    rw [hquery]
    have : recs.filter (contentQueryMatch q) = [] := by
      simp only [List.filter_eq_nil_iff]
      intro d hd
      simp [hnone d hd]
    rw [this]
    rfl

/-- Witness for claim C6: the specification's example query that matches
no stored page returns the empty sequence. -/
theorem search_substring_exact_witness :
    contentSearchRun "zzz-nomatch" demoStore = [] :=
  search_substring_exact.2.2.2.2.1 "zzz-nomatch" demoStore (by decide)

/-- Claim C7, as stated, is false on the code: for the question `a b`
over a store whose fourth page has the highest keyword-overlap score, the
code's context selection differs from overlap-count scoring with recency
tie-break — the code takes the first three matching pages in store order
and omits the highest-scoring page. -/
theorem knowledge_select_not_ranked_cx :
    knowledgeSelect "a b" demoRankStore ≠ specAnswerContext "a b" demoRankStore := by
  decide

/-- Claim C7 amended: `KnowledgeQueryTool._run` selects at most three
pages, namely the first three in store iteration order for which at
least one whitespace-split lowercase token of the question occurs as a
substring of the page's lowercased content or title; there is no
overlap-count scoring and no recency tie-break, and when no page matches
the selection is the empty sequence rather than an error. -/
theorem knowledge_select_first_three :
    ∀ (question : String) (pages : List KPage),
      knowledgeSelect question pages = (pages.filter (knowledgeMatch question)).take 3
      ∧ (knowledgeSelect question pages).length ≤ 3
      ∧ ((∀ p ∈ pages, knowledgeMatch question p = false) →
          knowledgeSelect question pages = []) := by
  intro question pages
  have h1 : knowledgeRelevant question pages = pages.filter (knowledgeMatch question) := by
    simpa using foldl_filter_append (knowledgeMatch question) pages []
  refine ⟨?_, ?_, ?_⟩
  · unfold knowledgeSelect
    rw [h1]
  · unfold knowledgeSelect
    rw [h1, List.length_take]
    exact Nat.min_le_left _ _
  · intro hnone
    unfold knowledgeSelect
    rw [h1]
    have : pages.filter (knowledgeMatch question) = [] := by
      simp only [List.filter_eq_nil_iff]
      intro p hp
      simp [hnone p hp]
    rw [this]
    rfl

/-- Witness for the amended claim C7: a question matching no stored page
selects the empty context. -/
theorem knowledge_select_first_three_witness :
    knowledgeSelect "qqq" demoStore = [] :=
  (knowledge_select_first_three "qqq" demoStore).2.2 (by decide)







